import Mathlib

/-!
Verification of `src/public/questions/02-data-types-conversion/solution.py`.

The program is the function `solve`: it reads five lines from standard
input (a string-typed integer, a string-typed float, a string-typed
boolean, an integer literal, a float literal), strips surrounding
whitespace from the first three, parses the fourth and fifth as numbers,
and prints nine labelled conversion lines.

The embedding models standard input as a `List String` of lines (the text
of each line, without its newline) and a run as a `RunResult`: either
`ok out` (the nine output lines) or `err out` (a fatal parse failure,
together with the lines already printed before it).

Python built-ins are modelled over exact values: `int` values as `ℤ` and
`float` values as `ℚ`.  Every float flowing through this program is an
exact decimal (it is parsed from a decimal literal or converted from an
integer), so the rational model is exact on the program's domain; binary64
rounding of integer-to-float conversion is modelled explicitly by
`roundB64`.  Not modelled (unreachable in the claims and irrelevant to
this program's inputs): `inf`/`nan` float literals, underscore separators
inside float literals, exponent-notation output of `str` for magnitudes
outside the fixed-point regime, and float overflow for astronomically
large exponents.
-/

namespace DataTypesConversion

/-- Characters Python's `str.strip()` removes (ASCII whitespace:
tab, newline, vertical tab, form feed, carriage return, space). -/
def pyIsSpace (c : Char) : Bool :=
  c.toNat = 32 || (9 ≤ c.toNat && c.toNat ≤ 13)

/-- Model of Python `str.strip()`: drop leading and trailing whitespace. -/
def pyStrip (s : String) : String :=
  String.mk (((s.data.dropWhile pyIsSpace).reverse.dropWhile pyIsSpace).reverse)

/-- Model of Python `str.lower()` on one ASCII character. -/
def pyLowerChar (c : Char) : Char :=
  if c.toNat < 65 || 90 < c.toNat then c else Char.ofNat (c.toNat + 32)

/-- Model of Python `str.lower()` (ASCII range). -/
def pyLower (s : String) : String :=
  String.mk (s.data.map pyLowerChar)

/-- Numeric value of a list of decimal digit characters. -/
def digitsVal (cs : List Char) : ℕ :=
  cs.foldl (fun a c => 10 * a + (c.toNat - 48)) 0

/-- Digit run as accepted by Python `int()`: nonempty, decimal digits,
with single underscores allowed only between digits. -/
def digitsUnd : List Char → Bool
  | [] => false
  | [c] => c.isDigit
  | c :: '_' :: rest => c.isDigit && digitsUnd rest
  | c :: rest => c.isDigit && digitsUnd rest

/-- Model of Python's built-in `int(str)`: strip whitespace, optional
sign, base-10 digit run; `ValueError` (here `none`) otherwise. -/
def pyIntParse (s : String) : Option ℤ :=
  match (pyStrip s).data with
  | '+' :: r => if digitsUnd r then some (digitsVal (r.filter (fun c => c != '_'))) else none
  | '-' :: r => if digitsUnd r then some (-(digitsVal (r.filter (fun c => c != '_')) : ℤ)) else none
  | r => if digitsUnd r then some (digitsVal (r.filter (fun c => c != '_'))) else none

/-- The exact rational `m * 10 ^ e`. -/
def ratOfMantExp (m : ℤ) (e : ℤ) : ℚ :=
  if 0 ≤ e then Rat.divInt (m * (10 : ℤ) ^ e.toNat) 1
  else Rat.divInt m ((10 : ℤ) ^ (-e).toNat)

/-- Exponent-part parser for Python `float()`: an optional sign followed
by a nonempty digit run that must consume the rest of the text. -/
def pyFloatExpPart (mant : ℤ) (scale : ℕ) : List Char → Option ℚ
  | '+' :: r =>
      let p := r.span (fun c => c.isDigit)
      if p.1.isEmpty || !p.2.isEmpty then none
      else some (ratOfMantExp mant ((digitsVal p.1 : ℤ) - scale))
  | '-' :: r =>
      let p := r.span (fun c => c.isDigit)
      if p.1.isEmpty || !p.2.isEmpty then none
      else some (ratOfMantExp mant (-(digitsVal p.1 : ℤ) - scale))
  | r =>
      let p := r.span (fun c => c.isDigit)
      if p.1.isEmpty || !p.2.isEmpty then none
      else some (ratOfMantExp mant ((digitsVal p.1 : ℤ) - scale))

/-- Mantissa-and-exponent assembly for Python `float()`: after the sign,
the text must be `digits [. digits] [exponent]` with at least one
mantissa digit. -/
def pyFloatBody (sgn : ℤ) (cs : List Char) : Option ℚ :=
  let ipp := cs.span (fun c => c.isDigit)
  let fpp : List Char × List Char :=
    match ipp.2 with
    | '.' :: r => r.span (fun c => c.isDigit)
    | r => ([], r)
  let rest : List Char :=
    match ipp.2 with
    | '.' :: _ => fpp.2
    | r => r
  if ipp.1.isEmpty && fpp.1.isEmpty then none
  else
    let mant : ℤ := sgn * (digitsVal (ipp.1 ++ fpp.1) : ℤ)
    match rest with
    | [] => some (ratOfMantExp mant (-(fpp.1.length : ℤ)))
    | 'e' :: r => pyFloatExpPart mant fpp.1.length r
    | 'E' :: r => pyFloatExpPart mant fpp.1.length r
    | _ => none

/-- Model of Python's built-in `float(str)` on decimal literals: strip
whitespace, optional sign, `digits [. digits] [(e|E) [sign] digits]`;
`ValueError` (here `none`) otherwise.  The value is the exact decimal. -/
def pyFloatParse (s : String) : Option ℚ :=
  match (pyStrip s).data with
  | '+' :: r => pyFloatBody 1 r
  | '-' :: r => pyFloatBody (-1) r
  | r => pyFloatBody 1 r

/-- Smallest `k ≤ fuel` (starting from `k₀`) with `d ∣ 10 ^ k`. -/
def decExpAux (d : ℕ) : ℕ → ℕ → ℕ
  | 0, k => k
  | fuel + 1, k => if 10 ^ k % d = 0 then k else decExpAux d fuel (k + 1)

/-- Smallest `k` with `d ∣ 10 ^ k`, for denominators of decimal
fractions (`d = 2^a * 5^b`); such `k` is at most `d`. -/
def decExp (d : ℕ) : ℕ :=
  decExpAux d d 0

/-- Digits of a fractional part: the digit string of `fp`, left-padded
with zeros to width `k`, with trailing zeros removed. -/
def fracDigits (fp k : ℕ) : String :=
  if fp = 0 then "0"
  else
    String.mk
      (((List.replicate (k - (toString fp).length) '0' ++ (toString fp).data).reverse.dropWhile
          (fun c => c == '0')).reverse)

/-- Model of Python `str(float)` in the fixed-point regime: sign,
integer part, a dot, and the fractional digits (a sole `0` when the
value is integral, so whole floats keep a trailing `.0`). -/
def pyStrFloat (q : ℚ) : String :=
  let sign := if q.num < 0 then "-" else ""
  let n := q.num.natAbs
  let d := q.den
  let k := decExp d
  let m := n * 10 ^ k / d
  sign ++ toString (m / 10 ^ k) ++ "." ++ fracDigits (m % 10 ^ k) k

/-- Model of Python `str(bool).lower()`: the lower-case word. -/
def pyStrBoolLower (b : Bool) : String :=
  if b then "true" else "false"

/-- Model of Python `bool(int)`: nonzero test. -/
def pyBoolOfInt (n : ℤ) : Bool :=
  n != 0

/-- Model of Python `bool(float)`: nonzero test. -/
def pyBoolOfFloat (q : ℚ) : Bool :=
  q.num != 0

/-- Model of Python `int(float)`: truncation toward zero
(T-division of the numerator by the denominator). -/
def pyTrunc (q : ℚ) : ℤ :=
  Int.tdiv q.num q.den

/-- Number of binary digits of `n` (`0` for `n = 0`), by fuel
recursion so that it evaluates by kernel reduction. -/
def bitsAux : ℕ → ℕ → ℕ
  | 0, _ => 0
  | fuel + 1, n => if n = 0 then 0 else bitsAux fuel (n / 2) + 1

/-- Bit length of a natural number. -/
def bitLen (n : ℕ) : ℕ :=
  bitsAux n n

/-- Round a natural number to the nearest binary64 value
(53-bit significand, round to nearest, ties to even). -/
def roundB64Nat (m : ℕ) : ℕ :=
  if m < 2 ^ 53 then m
  else
    let u := 2 ^ (bitLen m - 53)
    let q := m / u
    let r := m % u
    if 2 * r < u then q * u
    else if u < 2 * r then (q + 1) * u
    else if q % 2 = 0 then q * u else (q + 1) * u

/-- Round an integer to the nearest binary64 value. -/
def roundB64 (n : ℤ) : ℤ :=
  if 0 ≤ n then (roundB64Nat n.toNat : ℤ) else -(roundB64Nat (-n).toNat : ℤ)

/-- Model of Python `float(int)`: the integer rounded to binary64. -/
def pyFloatOfInt (n : ℤ) : ℚ :=
  Rat.divInt (roundB64 n) 1

/-- Outcome of a run of `solve`: normal termination with the printed
lines, or a fatal parse failure together with the lines already
printed before it. -/
inductive RunResult where
  | ok (output : List String)
  | err (outputSoFar : List String)
deriving DecidableEq

/-- Embedding of `solve()` from `solution.py`: standard input is the
list of input lines, and the result carries the standard-output lines.
Too few lines is an `EOFError` from `input()`, hence `err`. -/
def solve (stdin : List String) : RunResult :=
  match stdin with
  | line1 :: line2 :: line3 :: line4 :: line5 :: _ =>
    let str_int := pyStrip line1
    let str_float := pyStrip line2
    let str_bool := pyStrip line3
    match pyIntParse line4 with
    | none => .err []
    | some int_val =>
      match pyFloatParse line5 with
      | none => .err []
      | some float_val =>
        match pyIntParse str_int with
        | none => .err []
        | some si =>
          let out1 := "String to int: " ++ toString si
          match pyFloatParse str_float with
          | none => .err [out1]
          | some sf =>
            .ok [out1,
                 "String to float: " ++ pyStrFloat sf,
                 "String to bool: " ++ pyStrBoolLower (pyLower str_bool == "true"),
                 "Int to string: " ++ toString int_val,
                 "Int to float: " ++ pyStrFloat (pyFloatOfInt int_val),
                 "Int to bool: " ++ pyStrBoolLower (pyBoolOfInt int_val),
                 "Float to string: " ++ pyStrFloat float_val,
                 "Float to int: " ++ toString (pyTrunc float_val),
                 "Float to bool: " ++ pyStrBoolLower (pyBoolOfFloat float_val)]
  | _ => .err []

/-- C1: on input lines "42", "3.14", "True", "7", "2.5" the program
writes exactly the nine expected conversion lines, in order. -/
theorem c1_example_run :
    solve ["42", "3.14", "True", "7", "2.5"] =
      RunResult.ok
        ["String to int: 42",
         "String to float: 3.14",
         "String to bool: true",
         "Int to string: 7",
         "Int to float: 7.0",
         "Int to bool: true",
         "Float to string: 2.5",
         "Float to int: 2",
         "Float to bool: true"] := by
  decide

/-- T-division of the numerator by the denominator is floor for
nonnegative rationals and ceiling for negative ones. -/
theorem pyTrunc_eq_floor_or_ceil (q : ℚ) :
    pyTrunc q = if 0 ≤ q then ⌊q⌋ else ⌈q⌉ := by
  unfold pyTrunc
  by_cases hq : 0 ≤ q
  · rw [if_pos hq, Rat.floor_def,
      Int.tdiv_eq_ediv (Rat.num_nonneg.mpr hq) (Int.natCast_nonneg q.den)]
  · rw [if_neg hq]
    have hq' : 0 ≤ -q := le_of_lt (neg_pos.mpr (lt_of_not_ge hq))
    calc q.num.tdiv q.den
        = -((-q.num).tdiv q.den) := by rw [Int.neg_tdiv, neg_neg]
      _ = -(((-q).num).tdiv ((-q).den)) := by
          rw [Rat.num_neg_eq_neg_num, Rat.den_neg_eq_den]
      _ = -((-q).num / ((-q).den : ℤ)) := by
          rw [Int.tdiv_eq_ediv (Rat.num_nonneg.mpr hq') (Int.natCast_nonneg (-q).den)]
      _ = -⌊-q⌋ := by rw [Rat.floor_def]
      _ = ⌈q⌉ := by rw [Int.floor_neg, neg_neg]

/-- Binary64 rounding is exact on naturals up to `2 ^ 53`. -/
theorem roundB64Nat_eq_self (m : ℕ) (h : m ≤ 2 ^ 53) : roundB64Nat m = m := by
  by_cases hm : m < 2 ^ 53
  · unfold roundB64Nat
    rw [if_pos hm]
  · have hme : m = 2 ^ 53 := le_antisymm h (not_lt.mp hm)
    subst hme
    decide

/-- Binary64 rounding is exact on integers of magnitude up to `2 ^ 53`. -/
theorem roundB64_eq_self (n : ℤ) (h : n.natAbs ≤ 2 ^ 53) : roundB64 n = n := by
  unfold roundB64
  by_cases hn : 0 ≤ n
  · rw [if_pos hn, roundB64Nat_eq_self _ (by omega)]
    omega
  · rw [if_neg hn, roundB64Nat_eq_self _ (by omega)]
    omega

/-- C4: the Float-to-int conversion truncates toward zero: the printed
value is `pyTrunc x`, which is the floor for nonnegative floats and the
ceiling for negative ones (so the fractional part is discarded without
rounding). -/
theorem c4_float_to_int_truncates (l1 l2 l3 l4 l5 : String) (x : ℚ)
    (out : List String)
    (h5 : pyFloatParse l5 = some x)
    (h : solve [l1, l2, l3, l4, l5] = RunResult.ok out) :
    out[7]? = some ("Float to int: " ++ toString (pyTrunc x)) ∧
      pyTrunc x = (if 0 ≤ x then ⌊x⌋ else ⌈x⌉) := by
  refine ⟨?_, pyTrunc_eq_floor_or_ceil x⟩
  simp only [solve] at h
  split at h
  · exact absurd h (by simp)
  · split at h
    · exact absurd h (by simp)
    · split at h
      · exact absurd h (by simp)
      · split at h
        · exact absurd h (by simp)
        · simp_all
          subst h
          rfl

/-- C4 witness: on the concrete run with fifth line "-2.9" the program
prints "Float to int: -2", and `-29/10` truncates to the ceiling `-2`. -/
theorem c4_float_to_int_truncates_witness :
    (["String to int: 42",
      "String to float: 3.14",
      "String to bool: true",
      "Int to string: 7",
      "Int to float: 7.0",
      "Int to bool: true",
      "Float to string: -2.9",
      "Float to int: " ++ toString (pyTrunc (Rat.divInt (-29) 10)),
      "Float to bool: true"][7]? =
        some ("Float to int: " ++ toString (pyTrunc (Rat.divInt (-29) 10)))) ∧
      pyTrunc (Rat.divInt (-29) 10) =
        (if 0 ≤ (Rat.divInt (-29) 10 : ℚ) then ⌊(Rat.divInt (-29) 10 : ℚ)⌋
         else ⌈(Rat.divInt (-29) 10 : ℚ)⌉) :=
  c4_float_to_int_truncates "42" "3.14" "True" "7" "-2.9" (Rat.divInt (-29) 10)
    _ (by decide) (by decide)

/-- When all four numeric parses succeed, the run prints exactly the
nine labelled conversion lines, in order. -/
theorem solve_ok (l1 l2 l3 l4 l5 : String) (a n : ℤ) (b x : ℚ)
    (h1 : pyIntParse (pyStrip l1) = some a)
    (h2 : pyFloatParse (pyStrip l2) = some b)
    (h4 : pyIntParse l4 = some n)
    (h5 : pyFloatParse l5 = some x) :
    solve [l1, l2, l3, l4, l5] =
      RunResult.ok
        ["String to int: " ++ toString a,
         "String to float: " ++ pyStrFloat b,
         "String to bool: " ++ pyStrBoolLower (pyLower (pyStrip l3) == "true"),
         "Int to string: " ++ toString n,
         "Int to float: " ++ pyStrFloat (pyFloatOfInt n),
         "Int to bool: " ++ pyStrBoolLower (pyBoolOfInt n),
         "Float to string: " ++ pyStrFloat x,
         "Float to int: " ++ toString (pyTrunc x),
         "Float to bool: " ++ pyStrBoolLower (pyBoolOfFloat x)] := by
  simp only [solve, h1, h2, h4, h5]

/-- C2: in any successful run, the String-to-bool line prints the
lower-case word "true" exactly when the trimmed, lower-cased third
input line is the literal "true", and the lower-case word "false"
otherwise. -/
theorem c2_string_to_bool_case_insensitive (l1 l2 l3 l4 l5 : String)
    (out : List String)
    (h : solve [l1, l2, l3, l4, l5] = RunResult.ok out) :
    out[2]? =
      some ("String to bool: " ++
        (if pyLower (pyStrip l3) = "true" then "true" else "false")) := by
  simp only [solve] at h
  split at h
  · exact absurd h (by simp)
  · split at h
    · exact absurd h (by simp)
    · split at h
      · exact absurd h (by simp)
      · split at h
        · exact absurd h (by simp)
        · simp only [RunResult.ok.injEq] at h
          subst h
          by_cases hb : pyLower (pyStrip l3) = "true" <;>
            simp [pyStrBoolLower, hb]

/-- C2 witness: with third input line "TrUe" the String-to-bool line
prints "true". -/
theorem c2_string_to_bool_case_insensitive_witness :
    (["String to int: 42",
      "String to float: 3.14",
      "String to bool: true",
      "Int to string: 7",
      "Int to float: 7.0",
      "Int to bool: true",
      "Float to string: 2.5",
      "Float to int: 2",
      "Float to bool: true"] : List String)[2]? =
      some ("String to bool: " ++
        (if pyLower (pyStrip "TrUe") = "true" then "true" else "false")) :=
  c2_string_to_bool_case_insensitive "42" "3.14" "TrUe" "7" "2.5" _ (by decide)

/-- C3: in any successful run, the Int-to-bool line prints "false"
exactly when the fourth input parses to zero, and the Float-to-bool
line prints "false" exactly when the fifth input parses to zero; any
nonzero value, negative ones included, prints "true". -/
theorem c3_zero_to_false_nonzero_to_true (l1 l2 l3 l4 l5 : String)
    (n : ℤ) (x : ℚ) (out : List String)
    (h4 : pyIntParse l4 = some n)
    (h5 : pyFloatParse l5 = some x)
    (h : solve [l1, l2, l3, l4, l5] = RunResult.ok out) :
    out[5]? = some ("Int to bool: " ++ (if n = 0 then "false" else "true")) ∧
      out[8]? = some ("Float to bool: " ++ (if x = 0 then "false" else "true")) := by
  simp only [solve] at h
  split at h
  · exact absurd h (by simp)
  · split at h
    · exact absurd h (by simp)
    · split at h
      · exact absurd h (by simp)
      · split at h
        · exact absurd h (by simp)
        · simp_all only [Option.some.injEq, RunResult.ok.injEq]
          subst h
          constructor
          · by_cases hn : n = 0 <;>
              simp [pyBoolOfInt, pyStrBoolLower, hn]
          · by_cases hx : x = 0 <;>
              simp [pyBoolOfFloat, pyStrBoolLower, Rat.num_eq_zero, hx]

/-- C3 witness: with fourth line "-3" and fifth line "-0.5" both bool
lines print "true". -/
theorem c3_zero_to_false_nonzero_to_true_witness :
    (["String to int: 42",
      "String to float: 3.14",
      "String to bool: true",
      "Int to string: -3",
      "Int to float: -3.0",
      "Int to bool: true",
      "Float to string: -0.5",
      "Float to int: 0",
      "Float to bool: true"] : List String)[5]? =
        some ("Int to bool: " ++ (if (-3 : ℤ) = 0 then "false" else "true")) ∧
      (["String to int: 42",
        "String to float: 3.14",
        "String to bool: true",
        "Int to string: -3",
        "Int to float: -3.0",
        "Int to bool: true",
        "Float to string: -0.5",
        "Float to int: 0",
        "Float to bool: true"] : List String)[8]? =
        some ("Float to bool: " ++
          (if (Rat.divInt (-5) 10 : ℚ) = 0 then "false" else "true")) :=
  c3_zero_to_false_nonzero_to_true "42" "3.14" "True" "-3" "-0.5" (-3)
    (Rat.divInt (-5) 10) _ (by decide) (by decide) (by decide)

/-- C8: on any input whose four numeric parses succeed, the program
prints exactly nine lines, in the fixed order of the conversion table,
each of the form "Label: value" with the fixed labels; the Int-to-string
line renders the parsed integer with identity formatting and the
Int-to-float line widens it to a float. -/
theorem c8_nine_labelled_lines (l1 l2 l3 l4 l5 : String) (a n : ℤ) (b x : ℚ)
    (h1 : pyIntParse (pyStrip l1) = some a)
    (h2 : pyFloatParse (pyStrip l2) = some b)
    (h4 : pyIntParse l4 = some n)
    (h5 : pyFloatParse l5 = some x) :
    solve [l1, l2, l3, l4, l5] =
      RunResult.ok
        ["String to int: " ++ toString a,
         "String to float: " ++ pyStrFloat b,
         "String to bool: " ++ pyStrBoolLower (pyLower (pyStrip l3) == "true"),
         "Int to string: " ++ toString n,
         "Int to float: " ++ pyStrFloat (pyFloatOfInt n),
         "Int to bool: " ++ pyStrBoolLower (pyBoolOfInt n),
         "Float to string: " ++ pyStrFloat x,
         "Float to int: " ++ toString (pyTrunc x),
         "Float to bool: " ++ pyStrBoolLower (pyBoolOfFloat x)] :=
  solve_ok l1 l2 l3 l4 l5 a n b x h1 h2 h4 h5

/-- C8 witness: the nine labelled lines on the concrete example run. -/
theorem c8_nine_labelled_lines_witness :
    solve ["42", "3.14", "True", "7", "2.5"] =
      RunResult.ok
        ["String to int: " ++ toString (42 : ℤ),
         "String to float: " ++ pyStrFloat (Rat.divInt 314 100),
         "String to bool: " ++ pyStrBoolLower (pyLower (pyStrip "True") == "true"),
         "Int to string: " ++ toString (7 : ℤ),
         "Int to float: " ++ pyStrFloat (pyFloatOfInt 7),
         "Int to bool: " ++ pyStrBoolLower (pyBoolOfInt 7),
         "Float to string: " ++ pyStrFloat (Rat.divInt 25 10),
         "Float to int: " ++ toString (pyTrunc (Rat.divInt 25 10)),
         "Float to bool: " ++ pyStrBoolLower (pyBoolOfFloat (Rat.divInt 25 10))] :=
  c8_nine_labelled_lines "42" "3.14" "True" "7" "2.5" 42 7 (Rat.divInt 314 100)
    (Rat.divInt 25 10) (by decide) (by decide) (by decide) (by decide)

/-- C5: converting an integer of magnitude at most `2 ^ 53` to float and
that float back to int is the identity. -/
theorem c5_int_float_roundtrip (n : ℤ) (h : n.natAbs ≤ 2 ^ 53) :
    pyTrunc (pyFloatOfInt n) = n := by
  unfold pyFloatOfInt
  rw [roundB64_eq_self n h, Rat.divInt_one]
  unfold pyTrunc
  rw [Rat.num_intCast, Rat.den_intCast]
  simp [Int.tdiv_one n]

/-- C5 witness: the round trip is the identity at the boundary `2 ^ 53`. -/
theorem c5_int_float_roundtrip_witness :
    ((2 ^ 53 : ℤ).natAbs ≤ 2 ^ 53) ∧ pyTrunc (pyFloatOfInt (2 ^ 53)) = 2 ^ 53 :=
  ⟨by decide, c5_int_float_roundtrip (2 ^ 53) (by decide)⟩

/-- C6: whenever any of the four numeric lines holds malformed text,
the run ends in a fatal parse failure: the result is `err`, never a
default value and never a completed `ok` output. -/
theorem c6_malformed_numeric_is_fatal (l1 l2 l3 l4 l5 : String)
    (h : pyIntParse (pyStrip l1) = none ∨ pyFloatParse (pyStrip l2) = none ∨
         pyIntParse l4 = none ∨ pyFloatParse l5 = none) :
    ∃ out, solve [l1, l2, l3, l4, l5] = RunResult.err out := by
  simp only [solve]
  split
  · exact ⟨[], rfl⟩
  · split
    · exact ⟨[], rfl⟩
    · split
      · exact ⟨[], rfl⟩
      · split
        · exact ⟨_, rfl⟩
        · rcases h with h | h | h | h <;> simp_all

/-- C6 witness: the text "abc" on the first line makes the run fail. -/
theorem c6_malformed_numeric_is_fatal_witness :
    ∃ out, solve ["abc", "3.14", "True", "7", "2.5"] = RunResult.err out :=
  c6_malformed_numeric_is_fatal "abc" "3.14" "True" "7" "2.5"
    (Or.inl (by decide))

/-- C7: the program reads exactly five lines (lines beyond the fifth
never change the result, and fewer than five lines is a failure with no
output), the fourth and fifth lines are parsed immediately: if either
fails to parse, the run fails before printing anything; and surrounding
whitespace on the first three lines is trimmed, as on the concrete run
with lines " 42 ", " 3.14 ", " True ". -/
theorem c7_five_lines_trim_and_immediate_parse (l1 l2 l3 l4 l5 : String) :
    (∀ rest : List String,
        solve (l1 :: l2 :: l3 :: l4 :: l5 :: rest) = solve [l1, l2, l3, l4, l5]) ∧
      (∀ s : List String, s.length < 5 → solve s = RunResult.err []) ∧
      (pyIntParse l4 = none → solve [l1, l2, l3, l4, l5] = RunResult.err []) ∧
      (∀ n : ℤ, pyIntParse l4 = some n → pyFloatParse l5 = none →
        solve [l1, l2, l3, l4, l5] = RunResult.err []) ∧
      solve [" 42 ", " 3.14 ", " True ", "7", "2.5"] =
        RunResult.ok
          ["String to int: 42",
           "String to float: 3.14",
           "String to bool: true",
           "Int to string: 7",
           "Int to float: 7.0",
           "Int to bool: true",
           "Float to string: 2.5",
           "Float to int: 2",
           "Float to bool: true"] := by
  refine ⟨fun rest => rfl, ?_, ?_, ?_, by decide⟩
  · intro s hs
    match s with
    | [] => rfl
    | [_] => rfl
    | [_, _] => rfl
    | [_, _, _] => rfl
    | [_, _, _, _] => rfl
    | _ :: _ :: _ :: _ :: _ :: _ => exact absurd hs (by simp)
  · intro h4
    simp only [solve, h4]
  · intro n h4 h5
    simp only [solve, h4, h5]

/-- C7 witness: extra input lines are ignored, short input fails with no
output, and an unparseable fourth or fifth line fails before printing. -/
theorem c7_five_lines_trim_and_immediate_parse_witness :
    solve ["42", "3.14", "True", "7", "2.5", "IGNORED"] =
        solve ["42", "3.14", "True", "7", "2.5"] ∧
      solve ["42", "3.14"] = RunResult.err [] ∧
      solve ["42", "3.14", "True", "abc", "2.5"] = RunResult.err [] ∧
      solve ["42", "3.14", "True", "7", "abc"] = RunResult.err [] :=
  ⟨(c7_five_lines_trim_and_immediate_parse "42" "3.14" "True" "7" "2.5").1
      ["IGNORED"],
    (c7_five_lines_trim_and_immediate_parse "42" "3.14" "True" "7" "2.5").2.1
      ["42", "3.14"] (by decide),
    (c7_five_lines_trim_and_immediate_parse "42" "3.14" "True" "abc" "2.5").2.2.1
      (by decide),
    (c7_five_lines_trim_and_immediate_parse "42" "3.14" "True" "7" "abc").2.2.2.1
      7 (by decide) (by decide)⟩

/-- C9: the run is a pure function of standard input, and only of its
first five lines: any two stdin contents agreeing on the first five
lines give identical output and outcome. -/
theorem c9_deterministic_first_five_lines (s : List String) :
    solve s = solve (s.take 5) := by
  match s with
  | [] => rfl
  | [_] => rfl
  | [_, _] => rfl
  | [_, _, _] => rfl
  | [_, _, _, _] => rfl
  | _ :: _ :: _ :: _ :: _ :: _ => rfl

/-- C10: output is not atomic on error: parsing of the first two string
inputs happens at print time, so an unparseable first line fails with no
lines printed, while a well-formed first line followed by an unparseable
second line fails with the String-to-int line already printed. -/
theorem c10_error_after_earlier_lines (l1 l2 l3 l4 l5 : String)
    (n : ℤ) (x : ℚ)
    (h4 : pyIntParse l4 = some n)
    (h5 : pyFloatParse l5 = some x) :
    (pyIntParse (pyStrip l1) = none →
        solve [l1, l2, l3, l4, l5] = RunResult.err []) ∧
      (∀ a : ℤ, pyIntParse (pyStrip l1) = some a →
        pyFloatParse (pyStrip l2) = none →
        solve [l1, l2, l3, l4, l5] =
          RunResult.err ["String to int: " ++ toString a]) := by
  constructor
  · intro h1
    simp only [solve, h1, h4, h5]
  · intro a h1 h2
    simp only [solve, h1, h2, h4, h5]

/-- C10 witness: with second line "abc" the run prints the String-to-int
line and then fails. -/
theorem c10_error_after_earlier_lines_witness :
    solve ["42", "abc", "True", "7", "2.5"] =
      RunResult.err ["String to int: " ++ toString (42 : ℤ)] :=
  (c10_error_after_earlier_lines "42" "abc" "True" "7" "2.5" 7
      (Rat.divInt 25 10) (by decide) (by decide)).2
    42 (by decide) (by decide)

end DataTypesConversion
